import Mathlib

/-!
# Verification of the travel-agent front-end's tool-adapter and dispatch loop

A shallow embedding of `src/frontend/streamlit_app.py`: the JSON-schema →
typed-shape adapter (`create_pydantic_model_from_schema`), the tool-registry
builder (the loop constructing one `StructuredTool` per discovered MCP tool,
whose invocation coroutine `call_mcp_tool` binds the tool's name as a default
argument at construction time), and the agent dispatch loop (`run_agent`):
one planning completion, at most one sequential tool-execution round, one
final synthesis completion, with the empty/error payload heuristic and the
turn-aborting exception handler.

Python dictionaries are modelled as association lists in insertion order;
JSON values as an inductive `JsonValue` (numeric precision is irrelevant to
every property proved here: argument values flow opaquely through the loop);
awaited remote calls as an environment function returning `Except`, where
`Except.error` models a raised exception.
-/

/-- A JSON value as it appears in tool-call argument maps.  Values are opaque
to the dispatch loop: it only forwards them. -/
inductive JsonValue where
  | str (s : String)
  | num (n : Int)
  | boolean (b : Bool)
  | null
deriving DecidableEq, Repr

/-- One property entry of a JSON-Schema `properties` map:
`field_info.get("type")` and `field_info.get("description")` may each be
absent (`none`). -/
structure PropSchema where
  type? : Option String
  description? : Option String
deriving DecidableEq, Repr

/-- A tool's `inputSchema` tree, as far as the adapter reads it: an optional
`properties` map (association list in insertion order) and an optional
`required` list.  The source code never reads the `required` key; it is kept
in the model to state that the adapter's output is independent of it. -/
structure InputSchema where
  properties? : Option (List (String × PropSchema))
  required? : Option (List String)
deriving DecidableEq, Repr

/-- The target-side field kinds: `float`/`int`/`bool` for the Python types
`float`/`int`/`bool`, `text` for `str` (the default). -/
inductive FieldType where
  | float
  | int
  | bool
  | text
deriving DecidableEq, Repr

/-- One typed field of a CallArgumentShape: name, mapped type, attached
description, and the pydantic default slot.  The source always builds fields
as `(field_type, Field(description=...))` — no default — so the adapter
leaves `default?` as `none`, which is what makes a pydantic field required. -/
structure FieldSpec where
  name : String
  ftype : FieldType
  description : String
  default? : Option JsonValue
deriving DecidableEq, Repr

/-- The CallArgumentShape produced by the adapter: the `create_model` title
(`f"{name}Input"`) and the typed field list. -/
structure CallArgumentShape where
  title : String
  fields : List FieldSpec
deriving DecidableEq, Repr

/-- Embedding of `create_pydantic_model_from_schema(name, schema)`
(src/frontend/streamlit_app.py lines 40–50): if the schema has a
`properties` map, each property is mapped through the
`number`/`integer`/`boolean` if-chain with `str` as the default type, and
carries `field_info.get("description", "")`; otherwise the field set is
empty. -/
def create_pydantic_model_from_schema (name : String) (schema : InputSchema) :
    CallArgumentShape :=
  let fields : List FieldSpec :=
    match schema.properties? with
    | none => []
    | some props =>
      props.map fun p =>
        let field_type : FieldType :=
          if p.2.type? = some "number" then FieldType.float
          else if p.2.type? = some "integer" then FieldType.int
          else if p.2.type? = some "boolean" then FieldType.bool
          else FieldType.text
        { name := p.1, ftype := field_type,
          description := (p.2.description?).getD "", default? := none }
  { title := name ++ "Input", fields := fields }

/-- The type-mapping rule exactly as the specification enumerates it:
number→float, integer→int, boolean→bool, string→text, unrecognized or
missing→text.  Stated separately from the source embedding (which has no
explicit `string` branch) so that their agreement is a theorem. -/
def claimed_type_map (t : Option String) : FieldType :=
  if t = some "number" then FieldType.float
  else if t = some "integer" then FieldType.int
  else if t = some "boolean" then FieldType.bool
  else if t = some "string" then FieldType.text
  else FieldType.text

/-- The field the specification's mapping rule produces for one declared
property. -/
def fieldOfProp (p : String × PropSchema) : FieldSpec :=
  { name := p.1, ftype := claimed_type_map p.2.type?,
    description := (p.2.description?).getD "", default? := none }

/-- Boundary model of the argument validator attached to a
CallArgumentShape (pydantic's documented semantics at this interface): a
field with no default value is required, so validation succeeds only when
every such field's name is present in the argument map. -/
def validate_args (fields : List FieldSpec) (args : List (String × JsonValue)) :
    Bool :=
  fields.all fun f => (args.lookup f.name).isSome || (f.default?).isSome

/-- A discovered tool as returned by `session.list_tools()`:
name, description, input schema. -/
structure ToolDescriptor where
  name : String
  description : String
  inputSchema : InputSchema
deriving DecidableEq, Repr

/-- The remote invocation `session.call_tool(tool_name, arguments=kwargs)`,
recorded as data: which name and which arguments went over the wire. -/
structure RemoteCall where
  tool_name : String
  arguments : List (String × JsonValue)
deriving DecidableEq, Repr

/-- Embedding of the per-tool coroutine
`async def call_mcp_tool(tool_name=tool.name, **kwargs)` (lines 131–132):
the default argument evaluates `tool.name` at function-definition time, so
the name is bound per construction, and the body sends exactly that name
with the caller's keyword arguments. -/
def call_mcp_tool (tool_name : String) (kwargs : List (String × JsonValue)) :
    RemoteCall :=
  { tool_name := tool_name, arguments := kwargs }

/-- A registered LangChain `StructuredTool`: name, description, argument
shape, and the invocation coroutine (modelled as the remote call it issues). -/
structure StructuredTool where
  name : String
  description : String
  args_schema : CallArgumentShape
  coroutine : List (String × JsonValue) → RemoteCall

/-- Embedding of the registry-builder loop (lines 130–142): one
`StructuredTool` per discovered descriptor, in discovery order, with
`call_mcp_tool` partially applied to this iteration's `tool.name`. -/
def build_langchain_tools (ts : List ToolDescriptor) : List StructuredTool :=
  ts.map fun tool =>
    { name := tool.name, description := tool.description,
      args_schema := create_pydantic_model_from_schema tool.name tool.inputSchema,
      coroutine := call_mcp_tool tool.name }

/-- Embedding of the dispatch loop's tool resolution (line 165):
`next((t for t in langchain_tools if t.name == tool_call['name']), None)` —
the first registered tool with the requested name, else `none`. -/
def resolve_tool (tools : List StructuredTool) (nm : String) :
    Option StructuredTool :=
  tools.find? fun t => t.name == nm

/-- Resolution as the specification words it ("if duplicates occur,
last-registered wins"): the last registered tool carrying the requested
name.  Stated separately so its disagreement with `resolve_tool` is a
theorem. -/
def last_registered_resolve (tools : List StructuredTool) (nm : String) :
    Option StructuredTool :=
  (tools.filter fun t => t.name == nm).getLast?

lemma claimed_type_map_eq (t : Option String) :
    claimed_type_map t =
      (if t = some "number" then FieldType.float
       else if t = some "integer" then FieldType.int
       else if t = some "boolean" then FieldType.bool
       else FieldType.text) := by
  unfold claimed_type_map
  split_ifs <;> rfl

/-- Shared helper: the adapter's field list is exactly the map of the
specification's rule over the declared properties. -/
lemma adapter_fields_eq (name : String) (schema : InputSchema) :
    (create_pydantic_model_from_schema name schema).fields =
      ((schema.properties?).getD []).map fieldOfProp := by
  obtain ⟨props, req⟩ := schema
  cases props with
  | none => rfl
  | some l =>
    simp only [create_pydantic_model_from_schema, Option.getD]
    apply List.map_congr_left
    intro p _
    simp only [fieldOfProp, claimed_type_map_eq]
    rfl

/-- C7: for every declared schema property, the adapter maps declared type
`number` to a float field, `integer` to int, `boolean` to bool, `string` to
text, and any unrecognized or missing type to text, attaching the property's
description (empty string when absent). -/
theorem C7_type_mapping (name : String) (schema : InputSchema) :
    (create_pydantic_model_from_schema name schema).fields =
      ((schema.properties?).getD []).map fieldOfProp :=
  adapter_fields_eq name schema

/-- C8: a schema with no `properties` map — the key absent or the map empty —
yields a shape with zero fields, for any `required` list, with no error
observable to the caller (the adapter is a total function). -/
theorem C8_no_properties_empty_shape (name : String) (req : Option (List String)) :
    (create_pydantic_model_from_schema name
        { properties? := none, required? := req }).fields = [] ∧
    (create_pydantic_model_from_schema name
        { properties? := some [], required? := req }).fields = [] :=
  ⟨rfl, rfl⟩

/-- C9: each registered tool's invocation coroutine carries its own
descriptor's name, bound at construction: invoking the handle at position i
issues a remote call named after descriptor i, never after the
last-iterated descriptor, for any argument map. -/
theorem C9_coroutine_binds_own_name (ts : List ToolDescriptor)
    (kwargs : List (String × JsonValue)) :
    (build_langchain_tools ts).map (fun t => (t.name, t.coroutine kwargs)) =
      ts.map fun td => (td.name, { tool_name := td.name, arguments := kwargs }) := by
  simp [build_langchain_tools, call_mcp_tool]

/-- C10: every field the adapter produces has an empty default slot — it is
required regardless of the schema's `required` list — so an argument map
omitting any declared property fails shape validation. -/
theorem C10_fields_required (name : String) (schema : InputSchema)
    (args : List (String × JsonValue)) (fn : String) (fi : PropSchema)
    (hdecl : (fn, fi) ∈ (schema.properties?).getD [])
    (hmiss : args.lookup fn = none) :
    (∀ f ∈ (create_pydantic_model_from_schema name schema).fields,
        f.default? = none) ∧
    validate_args (create_pydantic_model_from_schema name schema).fields args
      = false := by
  constructor
  · intro f hf
    rw [adapter_fields_eq] at hf
    obtain ⟨p, _, rfl⟩ := List.mem_map.mp hf
    rfl
  · rw [Bool.eq_false_iff]
    intro hall
    rw [validate_args, List.all_eq_true] at hall
    have hmem : fieldOfProp (fn, fi) ∈
        (create_pydantic_model_from_schema name schema).fields := by
      rw [adapter_fields_eq]
      exact List.mem_map.mpr ⟨(fn, fi), hdecl, rfl⟩
    have := hall _ hmem
    simp [fieldOfProp, hmiss] at this

/-- Concrete schema used by witnesses: one declared string property. -/
def schemaW : InputSchema :=
  { properties? := some [("city", { type? := some "string",
                                     description? := some "City name" })],
    required? := none }

/-- Two descriptors registered under the same name, in registration order. -/
def dupDescriptors : List ToolDescriptor :=
  [{ name := "search", description := "first registration",
     inputSchema := { properties? := none, required? := none } },
   { name := "search", description := "second registration",
     inputSchema := { properties? := none, required? := none } }]

/-- C2 counterexample: with two registered tools sharing the name `search`,
the dispatch loop's resolution returns the first-registered tool, while the
last-registered one is a different tool — so "last-registered wins" is false
at this input. -/
theorem C2_counterexample :
    (resolve_tool (build_langchain_tools dupDescriptors) "search").map
        (fun t => t.description) = some "first registration" ∧
    (last_registered_resolve (build_langchain_tools dupDescriptors) "search").map
        (fun t => t.description) = some "second registration" ∧
    (resolve_tool (build_langchain_tools dupDescriptors) "search").map
        (fun t => t.description) ≠
      (last_registered_resolve (build_langchain_tools dupDescriptors) "search").map
        (fun t => t.description) :=
  ⟨rfl, rfl, by decide⟩

/-- C2 amended: if two registered tools share the same name, resolution
selects the first-registered tool — any tool whose name matches and that is
preceded only by tools with other names is the one returned. -/
theorem C2_amended_first_registered_wins (pre : List StructuredTool)
    (t : StructuredTool) (post : List StructuredTool) (nm : String)
    (hname : t.name = nm) (hpre : ∀ u ∈ pre, u.name ≠ nm) :
    resolve_tool (pre ++ t :: post) nm = some t := by
  unfold resolve_tool
  rw [List.find?_append]
  have h1 : pre.find? (fun u => u.name == nm) = none :=
    List.find?_eq_none.mpr fun u hu => by simp [hpre u hu]
  rw [h1]
  simp [List.find?_cons_of_pos, hname]

/-- Concrete first-registered tool named `search`. -/
def firstSearchTool : StructuredTool :=
  { name := "search", description := "first registration",
    args_schema := create_pydantic_model_from_schema "search"
      { properties? := none, required? := none },
    coroutine := call_mcp_tool "search" }

/-- Concrete second-registered tool named `search`. -/
def secondSearchTool : StructuredTool :=
  { name := "search", description := "second registration",
    args_schema := create_pydantic_model_from_schema "search"
      { properties? := none, required? := none },
    coroutine := call_mcp_tool "search" }

/-- Witness for the amended C2 at a concrete registry. -/
theorem C2_witness :
    firstSearchTool.name = "search" ∧
    (∀ u ∈ ([] : List StructuredTool), u.name ≠ "search") ∧
    resolve_tool ([] ++ firstSearchTool :: [secondSearchTool]) "search" =
      some firstSearchTool :=
  ⟨rfl, by simp,
    C2_amended_first_registered_wins [] firstSearchTool [secondSearchTool]
      "search" rfl (by simp)⟩

/-- Witness for C10 at a concrete input: the schema declares `city`, the
empty argument map omits it, and validation fails. -/
theorem C10_witness :
    (("city", ({ type? := some "string", description? := some "City name" }
        : PropSchema)) ∈ (schemaW.properties?).getD []) ∧
    List.lookup "city" ([] : List (String × JsonValue)) = none ∧
    validate_args (create_pydantic_model_from_schema "search_places" schemaW).fields
      [] = false :=
  ⟨by decide, by decide,
    (C10_fields_required "search_places" schemaW [] "city"
      { type? := some "string", description? := some "City name" }
      (by decide) (by decide)).2⟩

/-- Role of a conversation message (SystemMessage / HumanMessage / the
model's AIMessage / ToolMessage). -/
inductive Role where
  | system
  | user
  | assistant
  | tool
deriving DecidableEq, Repr

/-- A structured tool-call request carried by the model's assistant
message: correlation id, tool name, argument map. -/
structure ToolCall where
  id : String
  name : String
  args : List (String × JsonValue)
deriving DecidableEq, Repr

/-- A conversation message.  `tool_calls` is non-empty only on assistant
messages; `tool_call_id`/`name` are set only on tool-result messages. -/
structure Msg where
  role : Role
  content : String
  tool_calls : List ToolCall := []
  tool_call_id : Option String := none
  name : Option String := none
deriving DecidableEq, Repr

/-- One content segment of a remote tool invocation's payload. -/
structure TextContent where
  text : String
deriving DecidableEq, Repr

/-- The payload of `session.call_tool`: a list of content segments, of
which the dispatch loop reads `content[0].text`. -/
structure CallToolResult where
  content : List TextContent
deriving DecidableEq, Repr

/-- Observable events of one turn, in order: each model completion (with
the messages submitted to it), each remote tool invocation, each emitted
warning, and the status-channel error shown by the turn's exception
handler. -/
inductive Event where
  | llmCall (msgs : List Msg)
  | toolExec (call : RemoteCall)
  | warn (text : String)
  | statusError (text : String)
deriving DecidableEq, Repr

/-- Whether an event is a model completion request. -/
def isLlmCall : Event → Bool
  | Event.llmCall _ => true
  | _ => false

/-- Embedding of Python's substring membership `needle in hay`, on
character lists. -/
def containsSub (needle : List Char) : List Char → Bool
  | [] => needle.isEmpty
  | c :: rest => needle.isPrefixOf (c :: rest) || containsSub needle rest

lemma containsSub_iff (needle : List Char) :
    ∀ hay : List Char, containsSub needle hay = true ↔ needle <:+: hay := by
  intro hay
  induction hay with
  | nil =>
    simp [containsSub, List.isEmpty_iff, List.infix_nil]
  | cons c rest ih =>
    simp [containsSub, Bool.or_eq_true, List.isPrefixOf_iff_prefix, ih,
      List.infix_cons_iff]

/-- Python's `str.lower()`, character-wise. -/
def lowerChars (s : String) : List Char := s.toList.map Char.toLower

/-- Embedding of the empty/error heuristic (line 176):
`content_text == "[]" or content_text == "{}" or "error" in
content_text.lower()`. -/
def is_empty_or_error (content_text : String) : Bool :=
  content_text == "[]" || content_text == "{}" ||
    containsSub ("error".toList) (lowerChars content_text)

/-- The flag rule exactly as the claim words it: the raw payload equals
`[]` or `{}` or contains the substring `error` — case-sensitively, on the
raw text.  Stated separately so its disagreement with the source's
case-insensitive check is a theorem. -/
def claimed_empty_error_flag (content_text : String) : Bool :=
  content_text == "[]" || content_text == "{}" ||
    containsSub ("error".toList) (content_text.toList)

/-- The user-visible warning emitted when the flag is set (line 177). -/
def no_data_warning (nm : String) : String :=
  "⚠️ Tool " ++ nm ++ " returned no data. Expect limited results."

/-- The ToolMessage appended for a resolved, executed call (lines
179–184): raw payload as content, correlated by the request's id. -/
def tool_message (tc : ToolCall) (content_text : String) : Msg :=
  { role := Role.tool, content := content_text,
    tool_call_id := some tc.id, name := some tc.name }

/-- Accumulated outcome of the tool-execution loop: the tool-result
messages appended, the events emitted, and the raised exception's text if
one was raised (which aborts the loop and then the turn). -/
structure ExecResult where
  msgs : List Msg
  events : List Event
  failure : Option String
deriving DecidableEq, Repr

/-- Embedding of the tool-execution loop (lines 164–184).  For each
request, in order: resolve the name against the registry getting the first
match (line 165) — an unresolved name falls through the `if selected_tool:`
guard, executing and appending nothing; invoke the resolved tool's
coroutine (line 172, a raised exception aborting the loop); read
`content[0].text` (line 173, an out-of-range index likewise raising); warn
when the empty/error heuristic fires (lines 176–177); append the
tool-result message (lines 179–184). -/
def execCalls (execTool : RemoteCall → Except String CallToolResult)
    (tools : List StructuredTool) : List ToolCall → ExecResult
  | [] => { msgs := [], events := [], failure := none }
  | tc :: rest =>
    match resolve_tool tools tc.name with
    | none => execCalls execTool tools rest
    | some t =>
      let rc := t.coroutine tc.args
      match execTool rc with
      | Except.error e =>
        { msgs := [], events := [Event.toolExec rc], failure := some e }
      | Except.ok tool_result =>
        match tool_result.content.head? with
        | none =>
          { msgs := [], events := [Event.toolExec rc],
            failure := some "list index out of range" }
        | some seg =>
          let warnEvents : List Event :=
            if is_empty_or_error seg.text then
              [Event.warn (no_data_warning tc.name)]
            else []
          let r := execCalls execTool tools rest
          { msgs := tool_message tc seg.text :: r.msgs,
            events := Event.toolExec rc :: (warnEvents ++ r.events),
            failure := r.failure }

/-- The dispatch loop's environment: the grounding-policy text (the
system prompt, whose exact wording no property here depends on), the
discovered tool descriptors, the language-model backend as a black-box
completion function of the submitted messages, and the remote tool
boundary, where `Except.error` models a raised exception. -/
structure Env where
  system_prompt : String
  tools : List ToolDescriptor
  llm : List Msg → Msg
  execTool : RemoteCall → Except String CallToolResult

/-- The conversation seed (lines 151–154): the grounding-policy system
message followed by the user's request. -/
def seed_messages (env : Env) (query : String) : List Msg :=
  [{ role := Role.system, content := env.system_prompt },
   { role := Role.user, content := query }]

/-- The planning completion's assistant message (line 157). -/
def plan_message (env : Env) (query : String) : Msg :=
  env.llm (seed_messages env query)

/-- The turn's tool-execution outcome: the loop run on the planning
message's tool-call requests against the built registry. -/
def turn_exec (env : Env) (query : String) : ExecResult :=
  execCalls env.execTool (build_langchain_tools env.tools)
    (plan_message env query).tool_calls

/-- The messages submitted to the final synthesis completion (line 188):
seed, then the planning message, then the appended tool-result messages. -/
def synthesis_messages (env : Env) (query : String) : List Msg :=
  seed_messages env query ++ [plan_message env query] ++
    (turn_exec env query).msgs

/-- Outcome of one turn: its event trace, its final messages list, and
Python's return value — the final completion's content, or `None` when the
turn's exception handler fired (lines 192–194). -/
structure TurnResult where
  events : List Event
  messages : List Msg
  response : Option String
deriving DecidableEq, Repr

/-- Embedding of `run_agent` (lines 115–194): plan, execute the planning
message's tool calls, and either surface a raised failure on the status
channel and return `None`, or request exactly one synthesis completion and
return its content. -/
def run_agent (env : Env) (query : String) : TurnResult :=
  let ex := turn_exec env query
  match ex.failure with
  | some e =>
    { events := Event.llmCall (seed_messages env query) ::
        (ex.events ++ [Event.statusError ("Error: " ++ e)]),
      messages := seed_messages env query ++ [plan_message env query] ++ ex.msgs,
      response := none }
  | none =>
    { events := Event.llmCall (seed_messages env query) ::
        (ex.events ++ [Event.llmCall (synthesis_messages env query)]),
      messages := synthesis_messages env query,
      response := some (env.llm (synthesis_messages env query)).content }

/-- The turn's conversation: the messages submitted to the loop's
completions followed by the final assistant message when one is produced
(the code returns its content to the caller, which appends it to history;
it is a distinct entry, never merged into the planning message). -/
def produced_conversation (env : Env) (query : String) : List Msg :=
  match (run_agent env query).response with
  | some c => (run_agent env query).messages ++ [{ role := Role.assistant, content := c }]
  | none => (run_agent env query).messages

/-- The number of the planning message's tool-call requests whose name
resolves in the registry. -/
def resolved_count (env : Env) (query : String) : Nat :=
  ((plan_message env query).tool_calls.filter fun tc =>
    (resolve_tool (build_langchain_tools env.tools) tc.name).isSome).length

/-- A persistent chat-history entry of the Streamlit session state. -/
structure ChatMsg where
  role : String
  content : String
deriving DecidableEq, Repr

/-- Embedding of the caller's history append (lines 211–215): the final
answer is appended only when `run_agent` returned a truthy response —
`None` (an aborted turn) and the empty string append nothing. -/
def ui_append (history : List ChatMsg) (response : Option String) :
    List ChatMsg :=
  match response with
  | some r =>
    if r = "" then history
    else history ++ [{ role := "assistant", content := r }]
  | none => history

/-- Shared helper: when the execution loop raises no failure, it appends
exactly one tool-result message per resolved request. -/
lemma execCalls_msgs_length (execTool : RemoteCall → Except String CallToolResult)
    (tools : List StructuredTool) :
    ∀ calls : List ToolCall, (execCalls execTool tools calls).failure = none →
      (execCalls execTool tools calls).msgs.length =
        (calls.filter fun tc =>
          (resolve_tool tools tc.name).isSome).length := by
  intro calls
  induction calls with
  | nil => intro _; rfl
  | cons tc rest ih =>
    intro hfail
    rcases hres : resolve_tool tools tc.name with _ | t
    · simp only [execCalls, hres] at hfail ⊢
      rw [List.filter_cons]
      simp only [hres, Option.isSome_none]
      exact ih hfail
    · simp only [execCalls, hres] at hfail ⊢
      rcases hexec : execTool (t.coroutine tc.args) with e | tool_result
      · simp [hexec] at hfail
      · simp only [hexec] at hfail ⊢
        rcases hhead : tool_result.content.head? with _ | seg
        · simp [hhead] at hfail
        · simp only [hhead] at hfail ⊢
          rw [List.filter_cons]
          simp only [hres, Option.isSome_some, if_true, List.length_cons]
          rw [ih hfail]

/-- Shared helper: the execution loop itself never requests a model
completion — its event stream contains no completion event. -/
lemma execCalls_no_llmCall (execTool : RemoteCall → Except String CallToolResult)
    (tools : List StructuredTool) :
    ∀ calls : List ToolCall,
      ((execCalls execTool tools calls).events.countP isLlmCall) = 0 := by
  intro calls
  induction calls with
  | nil => rfl
  | cons tc rest ih =>
    rcases hres : resolve_tool tools tc.name with _ | t
    · simp only [execCalls, hres]
      exact ih
    · simp only [execCalls, hres]
      rcases hexec : execTool (t.coroutine tc.args) with e | tool_result
      · simp only [hexec]
        rfl
      · simp only [hexec]
        rcases hhead : tool_result.content.head? with _ | seg
        · simp only [hhead]
          rfl
        · simp only [hhead, List.countP_cons, List.countP_append]
          rcases hflag : is_empty_or_error seg.text with _ | _
          · simp [isLlmCall, ih, hflag]
          · simp [isLlmCall, ih, hflag]

/-- C1: for a turn that reaches synthesis (the execution loop raised no
failure), the turn's conversation is exactly the grounding-policy message,
the user message, the planning assistant message, one tool-result message
per resolved request, and the distinct final assistant message — so its
length is 1 + 1 + 1 + (resolved requests) + 1. -/
theorem C1_conversation_shape (env : Env) (query : String)
    (h : (turn_exec env query).failure = none) :
    produced_conversation env query =
      seed_messages env query ++ [plan_message env query] ++
        (turn_exec env query).msgs ++
        [{ role := Role.assistant,
           content := (env.llm (synthesis_messages env query)).content }] ∧
    (produced_conversation env query).length =
      1 + 1 + 1 + resolved_count env query + 1 := by
  have hconv : produced_conversation env query =
      seed_messages env query ++ [plan_message env query] ++
        (turn_exec env query).msgs ++
        [{ role := Role.assistant,
           content := (env.llm (synthesis_messages env query)).content }] := by
    simp only [produced_conversation, run_agent, h, synthesis_messages]
  refine ⟨hconv, ?_⟩
  rw [hconv]
  simp only [List.length_append, seed_messages, List.length_cons,
    List.length_singleton, List.length_nil, turn_exec]
  rw [execCalls_msgs_length env.execTool (build_langchain_tools env.tools)
    (plan_message env query).tool_calls h]
  simp only [resolved_count]

/-- The concrete tool descriptor used by the turn witnesses. -/
def searchDescriptor : ToolDescriptor :=
  { name := "search_flights", description := "Search flights", inputSchema := schemaW }

/-- A concrete planning message carrying one tool-call request. -/
def planMsgW : Msg :=
  { role := Role.assistant, content := "",
    tool_calls := [{ id := "call_1", name := "search_flights",
                     args := [("city", JsonValue.str "Paris")] }] }

/-- A concrete synthesis message that itself carries a tool-call request
again — exercising the one-shot limitation. -/
def finalMsgW : Msg :=
  { role := Role.assistant, content := "Here is your itinerary.",
    tool_calls := [{ id := "call_2", name := "search_flights", args := [] }] }

/-- A concrete environment whose tool invocation succeeds: the model plans
one call on the seed conversation and synthesizes afterwards. -/
def envOk : Env :=
  { system_prompt := "grounding policy",
    tools := [searchDescriptor],
    llm := fun msgs => if msgs.length == 2 then planMsgW else finalMsgW,
    execTool := fun _ =>
      Except.ok { content := [{ text := "AF123 Paris 210 USD" }] } }

/-- A concrete environment whose tool invocation raises. -/
def envFail : Env :=
  { system_prompt := "grounding policy",
    tools := [searchDescriptor],
    llm := fun msgs => if msgs.length == 2 then planMsgW else finalMsgW,
    execTool := fun _ => Except.error "Connection timeout" }

/-- Witness for C1: a concrete turn with one resolved tool call reaches
synthesis and its conversation has length 1 + 1 + 1 + 1 + 1. -/
theorem C1_witness :
    (turn_exec envOk "Plan a trip to Paris").failure = none ∧
    (produced_conversation envOk "Plan a trip to Paris").length =
      1 + 1 + 1 + resolved_count envOk "Plan a trip to Paris" + 1 ∧
    resolved_count envOk "Plan a trip to Paris" = 1 :=
  ⟨by decide,
    (C1_conversation_shape envOk "Plan a trip to Paris" (by decide)).2,
    by decide⟩

/-- C3: on a turn that reaches synthesis, the event trace is exactly the
planning completion, the tool-execution events (which contain no completion
request), and one final synthesis completion as the last event — so exactly
one further completion is requested after the tool round, and nothing (in
particular no tool execution) happens after it, whatever tool-call requests
the synthesis message itself carries. -/
theorem C3_one_shot_synthesis (env : Env) (query : String)
    (h : (turn_exec env query).failure = none) :
    (run_agent env query).events =
      Event.llmCall (seed_messages env query) ::
        ((turn_exec env query).events ++
          [Event.llmCall (synthesis_messages env query)]) ∧
    (run_agent env query).events.countP isLlmCall = 2 ∧
    (run_agent env query).events.getLast? =
      some (Event.llmCall (synthesis_messages env query)) := by
  have hev : (run_agent env query).events =
      Event.llmCall (seed_messages env query) ::
        ((turn_exec env query).events ++
          [Event.llmCall (synthesis_messages env query)]) := by
    simp only [run_agent, h]
  refine ⟨hev, ?_, ?_⟩
  · rw [hev]
    simp [turn_exec, List.countP_cons, List.countP_append,
      execCalls_no_llmCall, isLlmCall]
  · rw [hev, ← List.cons_append, List.getLast?_concat]

/-- Witness for C3: on a concrete turn whose synthesis message again
requests a tool call, the trace still holds exactly two completions with
the synthesis completion last. -/
theorem C3_witness :
    (turn_exec envOk "Plan a trip").failure = none ∧
    (envOk.llm (synthesis_messages envOk "Plan a trip")).tool_calls ≠ [] ∧
    (run_agent envOk "Plan a trip").events.countP isLlmCall = 2 ∧
    (run_agent envOk "Plan a trip").events.getLast? =
      some (Event.llmCall (synthesis_messages envOk "Plan a trip")) :=
  ⟨by decide, by decide,
    (C3_one_shot_synthesis envOk "Plan a trip" (by decide)).2.1,
    (C3_one_shot_synthesis envOk "Plan a trip" (by decide)).2.2⟩

/-- C4: a tool-call request whose name matches no registered tool is
silently skipped — executing the request list with it at the head is
identical (same tool-result messages, same events, same absence of
failure) to executing the remaining requests without it, so nothing is
invoked or appended for it and the turn proceeds. -/
theorem C4_unresolved_skipped
    (execTool : RemoteCall → Except String CallToolResult)
    (tools : List StructuredTool) (tc : ToolCall) (rest : List ToolCall)
    (h : ∀ t ∈ tools, t.name ≠ tc.name) :
    execCalls execTool tools (tc :: rest) = execCalls execTool tools rest := by
  have hres : resolve_tool tools tc.name = none := by
    rw [resolve_tool, List.find?_eq_none]
    intro t ht
    simpa using h t ht
  simp only [execCalls, hres]

/-- The concrete unresolvable request used by the C4 witness. -/
def unknownCall : ToolCall := { id := "call_9", name := "book_taxi", args := [] }

/-- Witness for C4: against the one-tool registry, a request naming
`book_taxi` is a no-op. -/
theorem C4_witness :
    (∀ t ∈ build_langchain_tools [searchDescriptor],
      t.name ≠ unknownCall.name) ∧
    execCalls envOk.execTool (build_langchain_tools [searchDescriptor])
        [unknownCall] =
      execCalls envOk.execTool (build_langchain_tools [searchDescriptor]) [] :=
  ⟨by decide,
    C4_unresolved_skipped envOk.execTool
      (build_langchain_tools [searchDescriptor]) unknownCall [] (by decide)⟩

/-- C5: a raised tool-invocation failure aborts the whole turn: the
returned response is `None`, the event trace ends with the status-channel
error carrying the raw failure text (and contains no synthesis
completion), and appending the response to the persistent chat history
leaves the history unchanged.  No retry exists: the trace shows the
execution events once, followed directly by the error status. -/
theorem C5_tool_failure_aborts (env : Env) (query : String) (e : String)
    (history : List ChatMsg)
    (h : (turn_exec env query).failure = some e) :
    (run_agent env query).response = none ∧
    (run_agent env query).events =
      Event.llmCall (seed_messages env query) ::
        ((turn_exec env query).events ++
          [Event.statusError ("Error: " ++ e)]) ∧
    ui_append history (run_agent env query).response = history := by
  simp [run_agent, h, ui_append]

/-- Witness for C5: a concrete turn whose tool raises `Connection timeout`
returns `None` and appends nothing to a sample history. -/
theorem C5_witness :
    (turn_exec envFail "Plan a trip").failure = some "Connection timeout" ∧
    (run_agent envFail "Plan a trip").response = none ∧
    ui_append [{ role := "user", content := "Plan a trip" }]
        (run_agent envFail "Plan a trip").response =
      [{ role := "user", content := "Plan a trip" }] :=
  ⟨by decide,
    (C5_tool_failure_aborts envFail "Plan a trip" "Connection timeout"
      [] (by decide)).1,
    (C5_tool_failure_aborts envFail "Plan a trip" "Connection timeout"
      [{ role := "user", content := "Plan a trip" }] (by decide)).2.2⟩

/-- C6 counterexample: the payload `Error` sets the code's flag (the source
lowercases before matching), while the claim's case-sensitive rule — equal
to `[]` or `{}` or containing the substring `error` — does not fire on it,
so the claim's "derived exactly by" is false at this input. -/
theorem C6_counterexample :
    is_empty_or_error "Error" = true ∧
    claimed_empty_error_flag "Error" = false := by
  decide

/-- C6 amended: the flag is derived by checking that the raw payload equals
`[]` or `{}` or contains the substring `error` case-insensitively; when an
executed call's payload arrives, the loop emits a warning exactly when the
flag is set, appends the raw payload as the tool-result message's content
either way, and raises no failure — the turn continues into synthesis. -/
theorem C6_amended_flag_and_continuation
    (execTool : RemoteCall → Except String CallToolResult)
    (tools : List StructuredTool) (tc : ToolCall) (t : StructuredTool)
    (rest : List ToolCall) (c : String)
    (hres : resolve_tool tools tc.name = some t)
    (hexec : execTool (t.coroutine tc.args) =
      Except.ok { content := [{ text := c }] }) :
    (is_empty_or_error c = true ↔
      (c = "[]" ∨ c = "{}" ∨ ("error".toList) <:+: lowerChars c)) ∧
    execCalls execTool tools (tc :: rest) =
      { msgs := tool_message tc c :: (execCalls execTool tools rest).msgs,
        events := Event.toolExec (t.coroutine tc.args) ::
          ((if is_empty_or_error c then [Event.warn (no_data_warning tc.name)]
            else []) ++ (execCalls execTool tools rest).events),
        failure := (execCalls execTool tools rest).failure } := by
  constructor
  · simp only [is_empty_or_error, Bool.or_eq_true, beq_iff_eq, containsSub_iff,
      or_assoc]
  · simp only [execCalls, hres, hexec, List.head?_cons]

/-- The registered tool the C6 witness resolves. -/
def searchToolW : StructuredTool :=
  { name := "search_flights", description := "Search flights",
    args_schema := create_pydantic_model_from_schema "search_flights" schemaW,
    coroutine := call_mcp_tool "search_flights" }

/-- The resolved request used by the C6 witness. -/
def errorCall : ToolCall :=
  { id := "call_3", name := "search_flights", args := [] }

/-- Witness for the amended C6 at a concrete uppercase-error payload: the
flag fires and equals the case-insensitive rule. -/
theorem C6_witness :
    resolve_tool [searchToolW] errorCall.name = some searchToolW ∧
    is_empty_or_error "ERROR: quota exceeded" = true ∧
    (is_empty_or_error "ERROR: quota exceeded" = true ↔
      ("ERROR: quota exceeded" = "[]" ∨ "ERROR: quota exceeded" = "{}" ∨
        ("error".toList) <:+: lowerChars "ERROR: quota exceeded")) :=
  ⟨rfl, by decide,
    (C6_amended_flag_and_continuation
      (fun _ => Except.ok { content := [{ text := "ERROR: quota exceeded" }] })
      [searchToolW] errorCall searchToolW [] "ERROR: quota exceeded"
      rfl rfl).1⟩
